import Mathlib

/-!
Shallow embedding of the pybind11_protobuf reflection bridge, from the
repository sources proto.cc, proto_utils.cc and proto_utils.h.

Modelling conventions:
- Python values are the inductive `PyVal`; surfaced error kinds are `PyError`.
- C++ functions that may throw are embedded as `Except PyError _`; returning
  `Except.error _` means the exception propagates and, unless the result type
  says otherwise, the mutated object is left in its pre-call state (the C++
  code throws before performing any mutation in every such place, except
  `AnyPackFromPyProto`, whose error case therefore carries the partial state).
- Machine integer widths and scalar coercion (spec section 4.2) are not needed
  by any claim below, so field stores hold `PyVal` directly.
- The templated field handlers (`DispatchFieldDescriptor`,
  `SetProtoSingularField`, the container classes bodies) are declared in code
  of this repository that is not under src/; definitions for them below are
  marked `Modelled from the spec:` and follow the spec wording.
-/

namespace Pybind11Protobuf

/-- Error kinds surfaced to the host caller (spec section 7). -/
inductive PyError where
  | attributeError
  | typeMismatch
  | indexOutOfRange
  | keyMissing
  | valueError
  | invalidArgument
  | unknownType
  | parseError
  deriving DecidableEq, Repr

/-- Host (python) values, as far as the claims need them. -/
inductive PyVal where
  | int (i : Int)
  | str (s : String)
  | bool (b : Bool)
  | list (xs : List PyVal)
  | dict (entries : List (PyVal × PyVal))

/-- The eighteen declared wire types of a field descriptor
(proto.cc lines 224 to 243, the `Type` enum). -/
inductive FieldType where
  | TYPE_DOUBLE
  | TYPE_FLOAT
  | TYPE_INT64
  | TYPE_UINT64
  | TYPE_INT32
  | TYPE_FIXED64
  | TYPE_FIXED32
  | TYPE_BOOL
  | TYPE_STRING
  | TYPE_GROUP
  | TYPE_MESSAGE
  | TYPE_BYTES
  | TYPE_UINT32
  | TYPE_ENUM
  | TYPE_SFIXED32
  | TYPE_SFIXED64
  | TYPE_SINT32
  | TYPE_SINT64
  deriving DecidableEq, Repr

/-- The ten storage kinds of a field descriptor
(proto.cc lines 246 to 257, the `CppType` enum). -/
inductive CppType where
  | CPPTYPE_INT32
  | CPPTYPE_INT64
  | CPPTYPE_UINT32
  | CPPTYPE_UINT64
  | CPPTYPE_DOUBLE
  | CPPTYPE_FLOAT
  | CPPTYPE_BOOL
  | CPPTYPE_ENUM
  | CPPTYPE_STRING
  | CPPTYPE_MESSAGE
  deriving DecidableEq, Repr

/-- Standard protobuf mapping from the declared wire type to the storage kind
(the scalar-kind tag of spec section 4.1). Note that `TYPE_GROUP` maps to
`CPPTYPE_MESSAGE`: groups are message category for the dispatcher. -/
def cppTypeOf : FieldType → CppType
  | .TYPE_DOUBLE => .CPPTYPE_DOUBLE
  | .TYPE_FLOAT => .CPPTYPE_FLOAT
  | .TYPE_INT64 => .CPPTYPE_INT64
  | .TYPE_UINT64 => .CPPTYPE_UINT64
  | .TYPE_INT32 => .CPPTYPE_INT32
  | .TYPE_FIXED64 => .CPPTYPE_UINT64
  | .TYPE_FIXED32 => .CPPTYPE_UINT32
  | .TYPE_BOOL => .CPPTYPE_BOOL
  | .TYPE_STRING => .CPPTYPE_STRING
  | .TYPE_GROUP => .CPPTYPE_MESSAGE
  | .TYPE_MESSAGE => .CPPTYPE_MESSAGE
  | .TYPE_BYTES => .CPPTYPE_STRING
  | .TYPE_UINT32 => .CPPTYPE_UINT32
  | .TYPE_ENUM => .CPPTYPE_ENUM
  | .TYPE_SFIXED32 => .CPPTYPE_INT32
  | .TYPE_SFIXED64 => .CPPTYPE_INT64
  | .TYPE_SINT32 => .CPPTYPE_INT32
  | .TYPE_SINT64 => .CPPTYPE_INT64

/-- Field descriptor: the observables used by proto_utils.cc, namely
`name()`, `type()`, `is_map()` and `is_repeated()`. In protobuf a map field
is represented as a repeated entry message, so a map field has
`type = TYPE_MESSAGE` and both flags true. -/
structure FieldDescriptor where
  name : String
  type : FieldType
  is_map : Bool
  is_repeated : Bool
  deriving DecidableEq, Repr

/-- Message descriptor: full name plus its fields, in declaration order. -/
structure Descriptor where
  full_name : String
  fields : List FieldDescriptor
  deriving DecidableEq, Repr

/-- Update an association list at a key, keeping the first-match position;
appends the entry when the key is absent. -/
def updateAssoc {A : Type} (l : List (String × A)) (k : String) (v : A) :
    List (String × A) :=
  match l with
  | [] => [(k, v)]
  | (k1, v1) :: t => if k1 = k then (k, v) :: t else (k1, v1) :: updateAssoc t k v

/-- A message instance: its descriptor and the reflection field stores.
Singular fields are stored when set; repeated and map stores exist (empty)
for every such field from allocation on, as with the reflection API. -/
structure Message where
  descriptor : Descriptor
  singular : List (String × PyVal)
  repeated : List (String × List PyVal)
  maps : List (String × List (PyVal × PyVal))

/-- A freshly allocated default instance for a descriptor
(`prototype->New()` at proto_utils.cc line 79). -/
def defaultMessage (d : Descriptor) : Message :=
  { descriptor := d
    singular := []
    repeated := (d.fields.filter (fun f => f.is_repeated && !f.is_map)).map
      (fun f => (f.name, []))
    maps := (d.fields.filter (fun f => f.is_map)).map (fun f => (f.name, [])) }

/-- Embeds `Descriptor::FindFieldByName` as used at proto_utils.cc line 111. -/
def FindFieldByName (d : Descriptor) (name : String) : Option FieldDescriptor :=
  d.fields.find? (fun f => f.name == name)

/-- Embeds `GetFieldDescriptor` (proto_utils.cc lines 109 to 119): missing
field name raises AttributeError. -/
def GetFieldDescriptor (m : Message) (name : String) :
    Except PyError FieldDescriptor :=
  match FindFieldByName m.descriptor name with
  | none => .error .attributeError
  | some fd => .ok fd

/-- Modelled from the spec: the `SetProtoSingularField` handler template is
declared in repository code not under src/ (it is dispatched at
proto_utils.cc lines 150 and 162). Per section 4.1 the dispatcher picks the
handler from the storage-kind tag `cppTypeOf fd.type`; per section 4.3 the
scalar and enum handlers coerce and write the value, and per section 4.8 the
message-category handler merges from the provided sub-proto (this is why
proto_utils.h lines 52 to 54 say ProtoInitFields, unlike ProtoSetField, can
set message fields, and why ProtoSetAttr needs its own guard). Coercion and
merge both leave the provided value in the singular store here; no claim
below inspects coercion details. -/
def SetProtoSingularField (fd : FieldDescriptor) (m : Message) (v : PyVal) :
    Message :=
  { m with singular := updateAssoc m.singular fd.name v }

/-- Append elements to a repeated store at a key. -/
def extendAssoc (l : List (String × List PyVal)) (k : String) (xs : List PyVal) :
    List (String × List PyVal) :=
  match l with
  | [] => [(k, xs)]
  | (k1, v1) :: t =>
      if k1 = k then (k, v1 ++ xs) :: t else (k1, v1) :: extendAssoc t k xs

/-- Modelled from the spec: the `SetProtoRepeatedField` handler template is
declared in repository code not under src/ (dispatched at proto_utils.cc
line 160). Per section 4.8 a repeated keyword extends the field from the
iterable, in iteration order; a non-iterable is a failed coercion
(TypeMismatchError, section 7). -/
def SetProtoRepeatedField (fd : FieldDescriptor) (m : Message) (v : PyVal) :
    Except PyError Message :=
  match v with
  | .list xs => .ok { m with repeated := extendAssoc m.repeated fd.name xs }
  | _ => .error .typeMismatch

/-- Embeds `ProtoSetAttr` (proto_utils.cc lines 140 to 151): map, repeated
and TYPE_MESSAGE fields raise AttributeError before any mutation; everything
else is dispatched to the singular set handler. The guard tests the declared
type tag, not the storage kind, so a TYPE_GROUP field is not caught. -/
def ProtoSetAttr (m : Message) (name : String) (v : PyVal) :
    Except PyError Message :=
  match GetFieldDescriptor m name with
  | .error e => .error e
  | .ok fd =>
      if fd.is_map = true ∨ fd.is_repeated = true ∨ fd.type = FieldType.TYPE_MESSAGE
      then .error .attributeError
      else .ok (SetProtoSingularField fd m v)

/-- Embeds `ProtoInitAttrs` (proto_utils.cc lines 153 to 165): for each
keyword argument in order, look up the field (AttributeError when absent);
a map field hits the empty TODO branch at line 158 and nothing is done; a
repeated field is extended; otherwise the singular set handler runs. -/
def ProtoInitAttrs (m : Message) (kwargs : List (String × PyVal)) :
    Except PyError Message :=
  match kwargs with
  | [] => .ok m
  | (name, val) :: rest =>
    match GetFieldDescriptor m name with
    | .error e => .error e
    | .ok fd =>
      if fd.is_map then
        -- source line 158: TODO, map fields are skipped
        ProtoInitAttrs m rest
      else if fd.is_repeated then
        match SetProtoRepeatedField fd m val with
        | .error e => .error e
        | .ok m1 => ProtoInitAttrs m1 rest
      else
        ProtoInitAttrs (SetProtoSingularField fd m val) rest

/-- Embeds `ProtoFieldContainerBase::CheckIndex` (proto_utils.cc lines 93 to
99): when `allowed_size` is negative it is replaced by the container size;
an index below zero or at least the bound raises the index-out-of-range
error. -/
def CheckIndex (size : Nat) (idx : Int) (allowed_size : Int) :
    Except PyError Unit :=
  let n : Int := if allowed_size < 0 then (size : Int) else allowed_size
  if idx < 0 ∨ n ≤ idx then .error .indexOutOfRange else .ok ()

/-- Modelled from the spec: `RepeatedFieldContainer::GetItem` (bound at
proto.cc line 49) is declared in repository code not under src/. Per
section 4.4, index read wraps a negative index by the length and then uses
the source `CheckIndex` bound check. The container is its element list. -/
def GetItem {α : Type} (c : List α) (idx : Int) : Except PyError α :=
  let i : Int := if idx < 0 then idx + (c.length : Int) else idx
  match CheckIndex c.length i (-1) with
  | .error e => .error e
  | .ok _ =>
    match c.get? i.toNat with
    | some a => .ok a
    | none => .error .indexOutOfRange

/-- Modelled from the spec: `MapFieldContainer::SetItem` (bound at proto.cc
line 75) is declared in repository code not under src/. Per section 4.5,
keyed write inserts the entry or replaces the value at an existing key. The
map container is its entry list; keys for a given container are strings and
scalar values are integers, standing in for any scalar map instantiation. -/
def MapContainerSetItem (m : List (String × Int)) (k : String) (v : Int) :
    List (String × Int) :=
  updateAssoc m k v

/-- Embeds the `__setitem__` choice of `MapFieldBindings` (proto.cc lines 69
to 76): when the value type `T` is `proto2::Message` (flag true), the bound
lambda ignores every argument and throws a value error, touching nothing;
otherwise `__setitem__` is the container SetItem. -/
def mapSetItemBinding (valueIsMessage : Bool) (m : List (String × Int))
    (k : String) (v : Int) : Except PyError (List (String × Int)) :=
  if valueIsMessage then .error .valueError
  else .ok (MapContainerSetItem m k v)

/-- A python object as seen through the duck-typed proto interface:
whether it exposes `DESCRIPTOR.full_name` (and that name), and whether it
exposes `SerializeToString` (and the bytes that call returns). -/
structure PyProto where
  descriptorFullName : Option String
  serializeResult : Option (List Nat)

/-- Embeds `PyProtoFullName` (proto_utils.cc lines 37 to 44): the two
attribute probes collapse to the optional full name. -/
def PyProtoFullName (p : PyProto) : Option String :=
  p.descriptorFullName

/-- Embeds `PyProtoSerializeToString` (proto_utils.cc lines 52 to 56):
objects without a `SerializeToString` attribute raise invalid-argument. -/
def PyProtoSerializeToString (p : PyProto) : Except PyError (List Nat) :=
  match p.serializeResult with
  | some b => .ok b
  | none => .error .invalidArgument

/-- The argument of `make_wrapped_c_proto`: either a python string or some
other python object, probed through the `PyProto` interface. -/
inductive PyArgHandle where
  | pystr (s : String)
  | pyobj (p : PyProto)

/-- Embeds `DescriptorPool::FindMessageTypeByName` on the generated pool
(proto_utils.cc lines 69 to 71): name lookup among registered descriptors. -/
def FindMessageTypeByName (pool : List Descriptor) (name : String) :
    Option Descriptor :=
  pool.find? (fun d => d.full_name == name)

/-- Embeds the `PyProtoAllocateMessage` specialization for a generic message
(proto_utils.cc lines 58 to 82): a string argument is the type name; else the
name is pulled from the argument, raising invalid-argument when absent; a name
missing from the pool raises the unknown-type error; otherwise a default
instance is allocated and initialized from the keyword arguments. The
message-factory prototype step always succeeds for a pool descriptor and is
folded into `defaultMessage`. -/
def PyProtoAllocateMessageGeneric (pool : List Descriptor) (arg : PyArgHandle)
    (kwargs : List (String × PyVal)) : Except PyError Message :=
  let nameOrErr : Except PyError String :=
    match arg with
    | .pystr s => .ok s
    | .pyobj p =>
      match PyProtoFullName p with
      | some n => .ok n
      | none => .error .invalidArgument
  match nameOrErr with
  | .error e => .error e
  | .ok full_type_name =>
    match FindMessageTypeByName pool full_type_name with
    | none => .error .unknownType
    | some descriptor => ProtoInitAttrs (defaultMessage descriptor) kwargs

/-- The two fields of a `google.protobuf.Any` message that the bindings
touch. -/
structure AnyProto where
  type_url : String
  value : List Nat
  deriving DecidableEq, Repr

/-- Embeds `AnyPackFromPyProto` (proto_utils.cc lines 84 to 90): without a
full name it returns false and touches nothing; otherwise it sets the type
url first and then the serialized value. Because `PyProtoSerializeToString`
can throw after the url write, the error case carries the state of the Any
at the throw. -/
def AnyPackFromPyProto (p : PyProto) (a : AnyProto) :
    Except (PyError × AnyProto) (Bool × AnyProto) :=
  match PyProtoFullName p with
  | none => .ok (false, a)
  | some n =>
    let a1 : AnyProto := { a with type_url := "type.googleapis.com/" ++ n }
    match PyProtoSerializeToString p with
    | .error e => .error (e, a1)
    | .ok bytes => .ok (true, { a1 with value := bytes })

/-- Embeds the `Pack` binding (proto.cc lines 326 to 330): a false return
from `AnyPackFromPyProto` becomes an invalid-argument error, with the Any
unchanged. -/
def AnyPackBinding (p : PyProto) (a : AnyProto) :
    Except (PyError × AnyProto) AnyProto :=
  match AnyPackFromPyProto p a with
  | .error ea => .error ea
  | .ok (true, a1) => .ok a1
  | .ok (false, a1) => .error (.invalidArgument, a1)

/-- The services of the underlying message library that the pickler touches:
the wire codec and the default instance. `parseFromString` consumes the
current content and returns the success flag together with the content after
the parse attempt (on failure, whatever parsed before the failure). The wire
format itself is outside this layer (spec sections 1 and 6). -/
structure PickleLib (C : Type) where
  serialize : C → List Nat
  parseFromString : List Nat → C → Bool × C
  defaultContent : C

/-- A message as the pickler sees it: its full type name and its content. -/
structure WireMessage (C : Type) where
  typeName : String
  content : C

/-- The pickle payload: exactly the two entries of the dict built at
proto_utils.h lines 140 to 141. -/
structure PicklePayload where
  serialized : List Nat
  type_name : String

/-- Embeds the pickle (get-state) lambda of `MakePickler` (proto_utils.h
lines 139 to 142): a two-entry mapping of the serialized bytes and the type
name. -/
def picklerGetState {C : Type} (lib : PickleLib C) (m : WireMessage C) :
    PicklePayload :=
  { serialized := lib.serialize m.content, type_name := m.typeName }

/-- Embeds the unpickle (set-state) lambda of `MakePickler` (proto_utils.h
lines 143 to 149) for the generic message type: allocate through the pool by
the stored type name (the path of proto_utils.cc lines 58 to 82, here with
the pool of allocatable type names), then call `ParseFromString` on the
serialized entry, discarding its success flag. -/
def picklerSetState {C : Type} (lib : PickleLib C) (pool : List String)
    (d : PicklePayload) : Except PyError (WireMessage C) :=
  if pool.contains d.type_name then
    let message : WireMessage C := { typeName := d.type_name
                                     content := lib.defaultContent }
    let pr := lib.parseFromString d.serialized message.content
    .ok { typeName := message.typeName, content := pr.2 }
  else .error .unknownType

/-- A python instance with a dynamic attribute dict, as needed by the
`dynamic_attr` descriptor classes (proto.cc lines 178 and 193). -/
structure DynObj (V : Type) where
  attrs : List (String × V)

/-- Embeds `pybind11::hasattr` on the dynamic attribute dict. -/
def hasattrD {V : Type} (o : DynObj V) (n : String) : Bool :=
  (o.attrs.lookup n).isSome

/-- Embeds `pybind11::getattr` on the dynamic attribute dict. -/
def getattrD {V : Type} (o : DynObj V) (n : String) : Option V :=
  o.attrs.lookup n

/-- Embeds `pybind11::setattr`: the new binding shadows any older one. -/
def setattrD {V : Type} (o : DynObj V) (n : String) (v : V) : DynObj V :=
  { attrs := (n, v) :: o.attrs }

/-- Embeds one access of a property defined by `DefConstantProperty`
(proto.cc lines 133 to 151): under the cache attribute name
`"_cache_" ++ name`, a miss invokes the generator on the instance and stores
the result; the access then returns the cached attribute. The third
component records whether the generator ran during this access. -/
def constantPropertyAccess {V : Type} (generator : DynObj V → V)
    (name : String) (o : DynObj V) : Option V × DynObj V × Bool :=
  let cache_name := "_cache_" ++ name
  if hasattrD o cache_name then (getattrD o cache_name, o, false)
  else
    let result := generator o
    let o1 := setattrD o cache_name result
    (getattrD o1 cache_name, o1, true)

/-- A sequence of `k` accesses of the same constant property: the list of
returned values in order, the final instance, and the total number of
generator invocations. -/
def iterateAccess {V : Type} (generator : DynObj V → V) (name : String) :
    Nat → DynObj V → List (Option V) × DynObj V × Nat
  | 0, o => ([], o, 0)
  | k + 1, o =>
    let r := constantPropertyAccess generator name o
    let rest := iterateAccess generator name k r.2.1
    (r.1 :: rest.1, rest.2.1, (if r.2.2 then 1 else 0) + rest.2.2)

/-- A python object for attribute probing: properties installed on its class
and its per-instance attribute dict. For a data descriptor (a bound
property) the class entry takes precedence, as in the host runtime. -/
structure PyObject where
  classProps : List (String × PyVal)
  instAttrs : List (String × PyVal)

/-- Attribute lookup: class properties first, then the instance dict. -/
def pyGetattr (o : PyObject) (n : String) : Option PyVal :=
  match o.classProps.lookup n with
  | some v => some v
  | none => o.instAttrs.lookup n

/-- Embeds `pybind11::hasattr` on a general object. -/
def pyHasattr (o : PyObject) (n : String) : Bool :=
  (pyGetattr o n).isSome

/-- Embeds `kIsWrappedCProtoAttr` (proto_utils.h line 33). -/
def kIsWrappedCProtoAttr : String := "_is_wrapped_c_proto"

/-- Embeds `IsWrappedCProto` (proto_utils.h lines 36 to 38): a pure
`hasattr` probe, never reading the attribute value. -/
def IsWrappedCProto (o : PyObject) : Bool :=
  pyHasattr o kIsWrappedCProtoAttr

/-- The class properties installed on `ProtoMessage` that matter here: the
sentinel read-only property of proto.cc line 273, whose getter always
returns true. -/
def protoMessageClassProps : List (String × PyVal) :=
  [(kIsWrappedCProtoAttr, PyVal.bool true)]

/-- A `ProtoMessage` instance: the class properties of the binding plus an
arbitrary instance dict. -/
def mkProtoMessage (instAttrs : List (String × PyVal)) : PyObject :=
  { classProps := protoMessageClassProps, instAttrs := instAttrs }

/-- A concrete descriptor with a scalar field `a` and a map field `m`
(maps are repeated entry messages, so `m` carries TYPE_MESSAGE and both
flags). -/
def pairMapDesc : Descriptor :=
  { full_name := "test.Pair"
    fields :=
      [ { name := "a", type := .TYPE_INT32, is_map := false, is_repeated := false }
      , { name := "m", type := .TYPE_MESSAGE, is_map := true, is_repeated := true } ] }

/-- A freshly allocated `test.Pair`. -/
def pairMapMsg0 : Message := defaultMessage pairMapDesc

/-- A concrete singular group field descriptor. -/
def groupFieldDesc : FieldDescriptor :=
  { name := "g", type := .TYPE_GROUP, is_map := false, is_repeated := false }

/-- A concrete descriptor with a singular group field. -/
def groupMsgDesc : Descriptor :=
  { full_name := "test.HasGroup", fields := [groupFieldDesc] }

/-- A freshly allocated `test.HasGroup`. -/
def groupMsg0 : Message := defaultMessage groupMsgDesc

/-- Looking up the key just written by `updateAssoc` yields the new value. -/
theorem lookup_updateAssoc {A : Type} (l : List (String × A)) (k : String)
    (v : A) : (updateAssoc l k v).lookup k = some v := by
  induction l with
  | nil => simp [updateAssoc, List.lookup]
  | cons hd tl ih =>
    obtain ⟨k1, v1⟩ := hd
    by_cases hk : k1 = k
    · simp [updateAssoc, hk, List.lookup]
    · cases hbe : (k == k1) with
      | true => exact absurd (eq_of_beq hbe).symm hk
      | false => simp [updateAssoc, hk, List.lookup, hbe, ih]

/-- C1: evaluation of the construction-time keyword initializer at a map
field. The claim says a keyword naming a map field performs a bulk update of
that map with the provided mapping; the code (the empty TODO branch at
proto_utils.cc line 158) silently skips the keyword, so the freshly
constructed message still has an empty map, contradicting both the claim and
the header documentation of ProtoInitFields (proto_utils.h lines 52 to 54),
which says message, map and repeated fields can be set this way. -/
theorem protoInitAttrs_map_kwarg_ignored :
    ProtoInitAttrs pairMapMsg0
        [("m", PyVal.dict [(PyVal.str "k", PyVal.int 1)])]
      = Except.ok pairMapMsg0
    ∧ pairMapMsg0.maps = [("m", [])] :=
  ⟨rfl, rfl⟩

/-- C2 counterexample: the claim says a singular group field (treated as a
message field) is rejected by attribute assignment with AttributeError; but
the guard at proto_utils.cc lines 143 to 144 tests the declared type tag
against TYPE_MESSAGE only, so a TYPE_GROUP field slips through and is
dispatched to the singular set handler, even though its storage-kind
category is message. -/
theorem protoSetAttr_group_counterexample :
    ProtoSetAttr groupMsg0 "g" (PyVal.int 3)
      = Except.ok (SetProtoSingularField groupFieldDesc groupMsg0 (PyVal.int 3))
    ∧ ProtoSetAttr groupMsg0 "g" (PyVal.int 3)
        ≠ Except.error PyError.attributeError
    ∧ cppTypeOf groupFieldDesc.type = CppType.CPPTYPE_MESSAGE := by
  refine ⟨rfl, ?_, rfl⟩
  intro h
  exact Except.noConfusion h

/-- C2 (amended): attribute assignment through ProtoSetAttr raises
AttributeError, before any mutation, exactly for map fields, repeated fields
and singular fields whose declared type tag is TYPE_MESSAGE; every other
field that exists, group fields included, is dispatched to the singular set
handler. -/
theorem protoSetAttr_reject_categories (m : Message) (name : String)
    (v : PyVal) (fd : FieldDescriptor)
    (hfind : FindFieldByName m.descriptor name = some fd) :
    (fd.is_map = true ∨ fd.is_repeated = true ∨ fd.type = FieldType.TYPE_MESSAGE →
       ProtoSetAttr m name v = Except.error PyError.attributeError)
  ∧ (fd.is_map = false → fd.is_repeated = false →
       fd.type ≠ FieldType.TYPE_MESSAGE →
       ProtoSetAttr m name v = Except.ok (SetProtoSingularField fd m v)) := by
  unfold ProtoSetAttr GetFieldDescriptor
  rw [hfind]
  dsimp only
  constructor
  · intro h
    rw [if_pos h]
  · intro h1 h2 h3
    rw [if_neg (by simp [h1, h2, h3])]

/-- C2 witness: on the concrete `test.Pair`, assigning the map field `m`
raises AttributeError and assigning the scalar field `a` reaches the
singular set handler. -/
theorem protoSetAttr_reject_categories_witness :
    ProtoSetAttr pairMapMsg0 "m" (PyVal.int 0)
      = Except.error PyError.attributeError
  ∧ ProtoSetAttr pairMapMsg0 "a" (PyVal.int 5)
      = Except.ok (SetProtoSingularField
          { name := "a", type := FieldType.TYPE_INT32, is_map := false
            is_repeated := false }
          pairMapMsg0 (PyVal.int 5)) := by
  constructor
  · exact (protoSetAttr_reject_categories pairMapMsg0 "m" (PyVal.int 0)
      { name := "m", type := FieldType.TYPE_MESSAGE, is_map := true
        is_repeated := true } rfl).1 (Or.inl rfl)
  · exact (protoSetAttr_reject_categories pairMapMsg0 "a" (PyVal.int 5)
      { name := "a", type := FieldType.TYPE_INT32, is_map := false
        is_repeated := false } rfl).2 rfl rfl (by decide)

/-- C4: for a map container whose value type is a message, keyed assignment
always raises a value error and returns no new state (the bound lambda at
proto.cc lines 71 to 73 throws before touching anything); for a scalar or
enum value type keyed assignment dispatches to the container SetItem, which
stores the value under the key. -/
theorem mapped_message_setitem_rejected (m : List (String × Int)) (k : String)
    (v : Int) :
    mapSetItemBinding true m k v = Except.error PyError.valueError
  ∧ mapSetItemBinding false m k v = Except.ok (MapContainerSetItem m k v)
  ∧ (MapContainerSetItem m k v).lookup k = some v :=
  ⟨rfl, rfl, lookup_updateAssoc m k v⟩

/-- C10: is_wrapped_c_proto is a pure hasattr probe of the sentinel name, so
it reports true exactly when the attribute exists on the class or instance,
never reading its value (an object carrying the attribute with value false
is still reported as wrapped); and every ProtoMessage instance exposes the
sentinel as a class property whose value is true. -/
theorem is_wrapped_c_proto_spec :
    (∀ cp ia : List (String × PyVal),
       IsWrappedCProto { classProps := cp, instAttrs := ia }
         = ((cp.lookup kIsWrappedCProtoAttr).isSome
             || (ia.lookup kIsWrappedCProtoAttr).isSome))
  ∧ (∀ v : PyVal, ∀ ia : List (String × PyVal),
       IsWrappedCProto
         { classProps := [], instAttrs := (kIsWrappedCProtoAttr, v) :: ia }
         = true)
  ∧ (∀ ia : List (String × PyVal),
       IsWrappedCProto (mkProtoMessage ia) = true
       ∧ pyGetattr (mkProtoMessage ia) kIsWrappedCProtoAttr
           = some (PyVal.bool true)) := by
  refine ⟨?_, ?_, ?_⟩
  · intro cp ia
    unfold IsWrappedCProto pyHasattr pyGetattr
    cases h : cp.lookup kIsWrappedCProtoAttr <;> simp [h]
  · intro v ia
    simp [IsWrappedCProto, pyHasattr, pyGetattr, List.lookup]
  · intro ia
    exact ⟨rfl, rfl⟩

/-- C3: an index operation on a repeated-field proxy of length n succeeds
exactly on indices in the interval from -n (inclusive) to n (exclusive),
with a negative index wrapping to n plus the index, and raises the
index-out-of-range error outside that interval. -/
theorem repeated_getItem_range_spec (c : List Int) (idx : Int) :
    (∀ a : Int,
       -(c.length : Int) ≤ idx → idx < (c.length : Int) →
       c.get? ((if idx < 0 then idx + (c.length : Int) else idx).toNat)
         = some a →
       GetItem c idx = Except.ok a)
  ∧ ((idx < -(c.length : Int) ∨ (c.length : Int) ≤ idx) →
       GetItem c idx = Except.error PyError.indexOutOfRange) := by
  constructor
  · intro a h1 h2 hget
    have hif : ¬((if idx < 0 then idx + (c.length : Int) else idx) < 0
        ∨ (c.length : Int) ≤ (if idx < 0 then idx + (c.length : Int) else idx)) := by
      split_ifs <;> omega
    rw [List.get?_eq_getElem?] at hget
    simp [GetItem, CheckIndex, hif, hget]
  · intro hout
    have hif : ((if idx < 0 then idx + (c.length : Int) else idx) < 0
        ∨ (c.length : Int) ≤ (if idx < 0 then idx + (c.length : Int) else idx)) := by
      split_ifs <;> omega
    simp [GetItem, CheckIndex, hif]

/-- C3 witness: on the three-element container, index -1 wraps to the last
element and index 5 is out of range. -/
theorem repeated_getItem_range_witness :
    GetItem ([10, 20, 30] : List Int) (-1) = Except.ok 30
  ∧ GetItem ([10, 20, 30] : List Int) 5
      = Except.error PyError.indexOutOfRange := by
  constructor
  · exact (repeated_getItem_range_spec [10, 20, 30] (-1)).1 30
      (by decide) (by decide) (by decide)
  · exact (repeated_getItem_range_spec [10, 20, 30] 5).2 (by decide)

/-- C5: make_wrapped_c_proto raises the unknown-type error for a type-name
string absent from the descriptor pool, and raises the invalid-argument
error for an argument that is neither a string nor an object exposing a
descriptor full name; in both cases no message is produced. -/
theorem make_wrapped_c_proto_error_spec (pool : List Descriptor) (s : String)
    (p : PyProto) (kw1 kw2 : List (String × PyVal))
    (hs : FindMessageTypeByName pool s = none)
    (hp : p.descriptorFullName = none) :
    PyProtoAllocateMessageGeneric pool (.pystr s) kw1
      = Except.error PyError.unknownType
  ∧ PyProtoAllocateMessageGeneric pool (.pyobj p) kw2
      = Except.error PyError.invalidArgument := by
  constructor
  · simp [PyProtoAllocateMessageGeneric, hs]
  · simp [PyProtoAllocateMessageGeneric, PyProtoFullName, hp]

/-- C5 witness: the empty pool knows no type, and the object without a
descriptor cannot name one. -/
theorem make_wrapped_c_proto_error_witness :
    PyProtoAllocateMessageGeneric [] (.pystr "pkg.DoesNotExist") []
      = Except.error PyError.unknownType
  ∧ PyProtoAllocateMessageGeneric [] (.pyobj ⟨none, none⟩) []
      = Except.error PyError.invalidArgument :=
  make_wrapped_c_proto_error_spec [] "pkg.DoesNotExist" ⟨none, none⟩ [] []
    rfl rfl

/-- C7: Any.Pack on an argument exposing a descriptor full name and
SerializeToString sets the type url to the google prefix followed by the
full name and the value to the serialized bytes; on an argument without a
descriptor it raises invalid-argument and leaves the Any unchanged. -/
theorem any_pack_spec (p q : PyProto) (a b : AnyProto) (n : String)
    (bytes : List Nat)
    (hn : p.descriptorFullName = some n)
    (hb : p.serializeResult = some bytes)
    (hq : q.descriptorFullName = none) :
    AnyPackBinding p a
      = Except.ok { type_url := "type.googleapis.com/" ++ n, value := bytes }
  ∧ AnyPackBinding q b = Except.error (PyError.invalidArgument, b) := by
  constructor
  · simp [AnyPackBinding, AnyPackFromPyProto, PyProtoFullName,
      PyProtoSerializeToString, hn, hb]
  · simp [AnyPackBinding, AnyPackFromPyProto, PyProtoFullName, hq]

/-- C7 witness: a concrete proto packs into the url and bytes, and a
descriptor-less object raises with the Any untouched. -/
theorem any_pack_witness :
    AnyPackBinding ⟨some "t.T", some [1, 2]⟩ ⟨"", []⟩
      = Except.ok { type_url := "type.googleapis.com/" ++ "t.T"
                    value := [1, 2] }
  ∧ AnyPackBinding ⟨none, none⟩ ⟨"u", [9]⟩
      = Except.error (PyError.invalidArgument, ⟨"u", [9]⟩) :=
  any_pack_spec ⟨some "t.T", some [1, 2]⟩ ⟨none, none⟩ ⟨"", []⟩ ⟨"u", [9]⟩
    "t.T" [1, 2] rfl rfl rfl

/-- C6: pickling produces exactly the two-entry payload of the serialized
bytes and the type name, and unpickling that payload through the pool
reallocates a message of the same type whose serialized bytes equal those of
the original, given the codec laws of the underlying library (parsing bytes
it serialized succeeds and reserializes to the same bytes). -/
theorem pickle_roundtrip_spec {C : Type} (lib : PickleLib C)
    (pool : List String) (w : WireMessage C) (c : C)
    (hpool : pool.contains w.typeName = true)
    (hparse : lib.parseFromString (lib.serialize w.content) lib.defaultContent
        = (true, c))
    (hser : lib.serialize c = lib.serialize w.content) :
    picklerGetState lib w
      = { serialized := lib.serialize w.content, type_name := w.typeName }
  ∧ picklerSetState lib pool (picklerGetState lib w)
      = Except.ok { typeName := w.typeName, content := c }
  ∧ lib.serialize c = lib.serialize w.content := by
  refine ⟨rfl, ?_, hser⟩
  have hmem : w.typeName ∈ pool := by simpa using hpool
  simp [picklerSetState, picklerGetState, hmem, hparse]

/-- C6 witness: with the identity codec on byte lists, unpickling the pickle
of a message returns a message with the same bytes. -/
theorem pickle_roundtrip_witness :
    picklerSetState (C := List Nat) ⟨id, fun b _ => (true, b), []⟩ ["t.T"]
      (picklerGetState ⟨id, fun b _ => (true, b), []⟩ ⟨"t.T", [7, 8]⟩)
      = Except.ok ⟨"t.T", [7, 8]⟩ :=
  (pickle_roundtrip_spec ⟨id, fun b _ => (true, b), []⟩ ["t.T"]
    ⟨"t.T", [7, 8]⟩ [7, 8] rfl rfl rfl).2.1

/-- C9: when the serialized entry of a pickled payload fails to parse as the
named type, the unpickler still returns a freshly allocated message holding
whatever the parse attempt left behind; the failure flag of ParseFromString
is discarded at proto_utils.h line 147 and no error reaches the caller. -/
theorem unpickle_parse_failure_spec {C : Type} (lib : PickleLib C)
    (pool : List String) (d : PicklePayload) (c : C)
    (hpool : pool.contains d.type_name = true)
    (hfail : lib.parseFromString d.serialized lib.defaultContent = (false, c)) :
    picklerSetState lib pool d
      = Except.ok { typeName := d.type_name, content := c } := by
  have hmem : d.type_name ∈ pool := by simpa using hpool
  simp [picklerSetState, hmem, hfail]

/-- C9 witness: a codec that always fails to parse still lets the unpickler
return a fresh message. -/
theorem unpickle_parse_failure_witness :
    picklerSetState (C := List Nat) ⟨id, fun _ x => (false, x), []⟩ ["t.T"]
      ⟨[9], "t.T"⟩
      = Except.ok ⟨"t.T", []⟩ :=
  unpickle_parse_failure_spec ⟨id, fun _ x => (false, x), []⟩ ["t.T"]
    ⟨[9], "t.T"⟩ [] rfl rfl

/-- Once the cache attribute holds a value, every further access of the
constant property returns that value, runs the generator zero times and
leaves the instance unchanged. -/
theorem cached_property_iterate {V : Type} (g : DynObj V → V) (name : String)
    (k : Nat) (o1 : DynObj V) (val : V)
    (hv : getattrD o1 ("_cache_" ++ name) = some val) :
    iterateAccess g name k o1 = (List.replicate k (some val), o1, 0) := by
  induction k with
  | zero => simp [iterateAccess]
  | succ k ih =>
    have hh : hasattrD o1 ("_cache_" ++ name) = true := by
      unfold hasattrD
      unfold getattrD at hv
      simp [hv]
    have hacc : constantPropertyAccess g name o1 = (some val, o1, false) := by
      simp [constantPropertyAccess, hh, hv]
    simp [iterateAccess, hacc, ih, List.replicate]

/-- C8: for a constant property on an instance whose cache attribute is not
yet set, any sequence of accesses runs the generator exactly once: the first
access computes and caches the result, and every access in the sequence
returns that identical cached object, the instance never changing after the
first access. -/
theorem defConstantProperty_runs_once {V : Type} (g : DynObj V → V)
    (name : String) (o : DynObj V) (k : Nat)
    (h : hasattrD o ("_cache_" ++ name) = false) :
    iterateAccess g name (k + 1) o
      = (List.replicate (k + 1) (some (g o)),
         setattrD o ("_cache_" ++ name) (g o), 1) := by
  have hset : getattrD (setattrD o ("_cache_" ++ name) (g o))
      ("_cache_" ++ name) = some (g o) := by
    simp [getattrD, setattrD, List.lookup]
  have hfirst : constantPropertyAccess g name o
      = (some (g o), setattrD o ("_cache_" ++ name) (g o), true) := by
    simp [constantPropertyAccess, h, hset]
  simp [iterateAccess, hfirst,
    cached_property_iterate g name k _ _ hset, List.replicate]

/-- C8 witness: two accesses on a fresh instance return the generated value
twice, cache it under the cache attribute name, and run the generator once. -/
theorem defConstantProperty_runs_once_witness :
    iterateAccess (V := Nat) (fun _ => 7) "fields_by_name" 2 ⟨[]⟩
      = (List.replicate 2 (some 7),
         setattrD (⟨[]⟩ : DynObj Nat) ("_cache_" ++ "fields_by_name") 7, 1) :=
  defConstantProperty_runs_once (fun _ => 7) "fields_by_name" ⟨[]⟩ 1 rfl

end Pybind11Protobuf
